import Mathlib

/-!
Verification of the post-transcription analysis core of the
sentiment-analysis-for-interviews pipeline: a shallow embedding of the
speaker mapper, the question/answer pairer, the report aggregator and the
orchestrator loop, with theorems settling the specified properties.

Python floats are modelled as exact rationals, `None`-able fields as
`Option`, dictionaries with insertion order as association lists.
-/

namespace Interviews

/-- Model of `SentimentResult` from src/src/models/analysis.py. -/
structure SentimentResult where
  label : String
  score : ℚ
  probabilities : List (String × ℚ)
deriving Repr, DecidableEq

/-- Model of `EmotionResult` from src/src/models/analysis.py. -/
structure EmotionResult where
  label : String
  score : ℚ
  probabilities : List (String × ℚ)
deriving Repr, DecidableEq

/-- Model of `Segment` from src/src/models/segment.py (`end` is a Lean keyword, rendered `end_`). -/
structure Segment where
  start : ℚ
  end_ : ℚ
  speaker : String
deriving Repr, DecidableEq

/-- Model of `TranscribedSegment` from src/src/models/segment.py. -/
structure TranscribedSegment where
  start : ℚ
  end_ : ℚ
  speaker : String
  text : String
  language : String
deriving Repr, DecidableEq

/-- Model of `AnalyzedSegment` from src/src/models/analysis.py. -/
structure AnalyzedSegment where
  start : ℚ
  end_ : ℚ
  speaker : String
  text : String
  language : String
  segment_id : ℤ
  role : String
  speaker_role : String
  sentiment : Option SentimentResult
  emotion : Option EmotionResult
  paired_with : Option ℤ
deriving Repr, DecidableEq

/-- The inner-loop guard of `pair_questions_answers`
(src/src/analysis/qa_pairer.py line 48): `segments[j].speaker_role != "Interviewer"`. -/
def notInterviewer (t : AnalyzedSegment) : Bool :=
  !(t.speaker_role == "Interviewer")

/-- Python's `s.strip()` yields the empty (falsy) string exactly when every
character of `s` is whitespace; modelled structurally on the character list
(Lean's `String.trim` does not reduce in the kernel). -/
def isBlank (s : String) : Bool :=
  s.data.all Char.isWhitespace

/-- Python truthiness of `answer.text.strip()` (qa_pairer.py line 50). -/
def hasText (t : AnalyzedSegment) : Bool :=
  !(isBlank t.text)

/-- The anchor condition of qa_pairer.py line 43:
`seg.speaker_role == "Interviewer" and seg.role == "question"`. -/
def isAnchor (s : AnalyzedSegment) : Bool :=
  s.speaker_role == "Interviewer" && s.role == "question"

/-- The body of the inner `while` for one run member (qa_pairer.py lines
49-57): a segment with non-empty stripped text gets `paired_with :=
question_id`, any other run member is left untouched. -/
def pairToQuestion (question_id : ℤ) (t : AnalyzedSegment) : AnalyzedSegment :=
  if hasText t then { t with paired_with := some question_id } else t

/-- The value `first_answer_id` as tracked by qa_pairer.py lines 45 and 55-56: the
`segment_id` of the first run member with non-empty stripped text, `None`
when the run has no such member. -/
def first_answer_id (run : List AnalyzedSegment) : Option ℤ :=
  ((run.filter hasText).head?).map AnalyzedSegment.segment_id

/-- The anchor update of qa_pairer.py lines 59-60: `if first_answer_id:` is
Python truthiness, so the anchor's `paired_with` is set only when the first
answer id is non-`None` AND non-zero. -/
def anchorResult (s : AnalyzedSegment) (run : List AnalyzedSegment) : AnalyzedSegment :=
  match first_answer_id run with
  | some a => if a ≠ 0 then { s with paired_with := some a } else s
  | none => s

/-- Embedding of `pair_questions_answers` from src/src/analysis/qa_pairer.py lines 35-69,
as a functional rendering of the index-based scan: when the outer scan hits an
anchor (line 43), the inner `while` (lines 47-57) consumes the maximal run of
non-Interviewer segments, updating each member via `pairToQuestion`; the
anchor is then updated via `anchorResult`, and the outer index resumes at the
end of the run (`i = j`, line 65); a non-anchor segment is passed over
unchanged (`i += 1`, line 67). -/
def pair_questions_answers : List AnalyzedSegment → List AnalyzedSegment
  | [] => []
  | s :: rest =>
    if isAnchor s then
      let run := rest.takeWhile notInterviewer
      let restAfter := rest.dropWhile notInterviewer
      anchorResult s run ::
        (run.map (pairToQuestion s.segment_id) ++ pair_questions_answers restAfter)
    else
      s :: pair_questions_answers rest
termination_by l => l.length
decreasing_by
  · exact Nat.lt_succ_of_le (List.IsSuffix.length_le (List.dropWhile_suffix _))
  · exact Nat.lt_succ_self _

/-- The key list of `collections.Counter` built from `xs`: distinct elements in
first-occurrence order (Counter is a dict, insertion-ordered). -/
def firstOccurrences (xs : List String) : List String :=
  xs.foldl (fun acc s => if s ∈ acc then acc else acc ++ [s]) []

/-- Embedding of `Counter(xs).items()`: distinct keys in first-occurrence order, each with
its number of occurrences in `xs`. -/
def counterItems (xs : List String) : List (String × ℕ) :=
  (firstOccurrences xs).map fun s => (s, xs.count s)

/-- Embedding of `Counter.most_common()`: the items sorted by descending count; CPython uses
`sorted(..., key=itemgetter(1), reverse=True)`, which is a stable sort. -/
def mostCommon (items : List (String × ℕ)) : List (String × ℕ) :=
  items.mergeSort fun a b => decide (b.2 ≤ a.2)

/-- Embedding of `map_speakers` from src/src/analysis/speaker_mapper.py lines 34-53: count
segments per speaker, take `most_common()` reversed (least frequent first), and
map the first listed speaker to "Interviewer", every other one to "Interviewee".
The result dict is rendered as an association list in insertion order. -/
def map_speakers (segments : List TranscribedSegment) : List (String × String) :=
  if segments.isEmpty then []
  else
    let sorted_speakers :=
      (mostCommon (counterItems (segments.map TranscribedSegment.speaker))).reverse
    match sorted_speakers with
    | [] => []
    | first :: others => (first.1, "Interviewer") :: others.map fun p => (p.1, "Interviewee")

/-- Embedding of `get_speaker_role` from src/src/analysis/speaker_mapper.py lines 56-57:
`speaker_map.get(speaker, speaker)`. -/
def get_speaker_role (speaker : String) (speaker_map : List (String × String)) : String :=
  match speaker_map.lookup speaker with
  | some role => role
  | none => speaker

/-- Python 3 `round` to an integer on an exact rational: round half to even. -/
def roundHalfEven (q : ℚ) : ℤ :=
  let f := ⌊q⌋
  if q - f < 1/2 then f
  else if 1/2 < q - f then f + 1
  else if Even f then f else f + 1

/-- Python `round(q, d)` on an exact rational. -/
def pyRound (q : ℚ) (d : ℕ) : ℚ :=
  (roundHalfEven (q * 10 ^ d) : ℚ) / 10 ^ d

/-- Model of `SentimentDistribution` from src/src/models/interview.py. -/
structure SentimentDistribution where
  count : ℕ
  percentage : ℚ
deriving Repr, DecidableEq

/-- Model of `InterviewMetadata` from src/src/models/interview.py. -/
structure InterviewMetadata where
  date : String
  participants : List String
  duration_seconds : ℚ
  language : String
deriving Repr, DecidableEq

/-- Model of `InterviewReport` from src/src/models/interview.py; the two distribution
dicts are association lists in insertion order. -/
structure InterviewReport where
  total_segments : ℕ
  total_questions : ℕ
  total_statements : ℕ
  sentiment_distribution : List (String × SentimentDistribution)
  emotion_distribution : List (String × SentimentDistribution)
  average_sentiment_score : ℚ
  dominant_sentiment : String
  dominant_emotion : String
deriving Repr, DecidableEq

/-- Model of `InterviewAnalysis` from src/src/models/interview.py. -/
structure InterviewAnalysis where
  interview_id : String
  metadata : InterviewMetadata
  segments : List AnalyzedSegment
  report : InterviewReport
deriving Repr, DecidableEq

/-- Embedding of `_calculate_distribution` from src/src/output/report_generator.py
lines 18-27: for each distinct label (Counter insertion order) pair its count
with `round(100 * count / total, 1)` when `total > 0`, else `0.0`. -/
def calculate_distribution (items : List String) (total : ℕ) :
    List (String × SentimentDistribution) :=
  (counterItems items).map fun lc =>
    (lc.1, ⟨lc.2, if total > 0 then pyRound (100 * (lc.2 : ℚ) / (total : ℚ)) 1 else 0⟩)

/-- Python `max(dist, key=lambda k: dist[k].count, default="N/A")` over an
insertion-ordered dict: the first key attaining the maximal count ( `max`
keeps the incumbent unless a later item is strictly greater), or "N/A" when
the dict is empty. -/
def dominantLabel (dist : List (String × SentimentDistribution)) : String :=
  match dist with
  | [] => "N/A"
  | x :: xs => (xs.foldl (fun best y => if best.2.count < y.2.count then y else best) x).1

/-- The role filters of report_generator.py lines 38-39. -/
def isQuestionRole (s : AnalyzedSegment) : Bool := s.role == "question"

/-- Statement-role filter (report_generator.py line 39). -/
def isStatementRole (s : AnalyzedSegment) : Bool := s.role == "statement"

/-- Embedding of `generate_report` from src/src/output/report_generator.py lines 30-84.
`today` injects `datetime.now().strftime("%Y-%m-%d")` (wall clock, line 62);
`participants` renders Python's `list(set(...))` as a first-occurrence
dedup — its iteration order is unspecified in the source and no theorem
below depends on it. -/
def generate_report (segments : List AnalyzedSegment) (duration_seconds : ℚ)
    (language : String) (interview_id : String) (today : String) :
    InterviewAnalysis :=
  let participants := firstOccurrences (segments.map AnalyzedSegment.speaker_role)
  let questions := segments.filter isQuestionRole
  let statements := segments.filter isStatementRole
  let sentiments := (statements.filterMap AnalyzedSegment.sentiment).map SentimentResult.label
  let sentiment_dist := calculate_distribution sentiments statements.length
  let emotions := (statements.filterMap AnalyzedSegment.emotion).map EmotionResult.label
  let emotion_dist := calculate_distribution emotions statements.length
  let scores := (statements.filterMap AnalyzedSegment.sentiment).map SentimentResult.score
  let avg_score := if scores.isEmpty then 1/2 else pyRound (scores.sum / scores.length) 3
  let dominant_sentiment := dominantLabel sentiment_dist
  let dominant_emotion := dominantLabel emotion_dist
  { interview_id := interview_id
    metadata :=
      { date := today
        participants := participants
        duration_seconds := pyRound duration_seconds 2
        language := language }
    segments := segments
    report :=
      { total_segments := segments.length
        total_questions := questions.length
        total_statements := statements.length
        sentiment_distribution := sentiment_dist
        emotion_distribution := emotion_dist
        average_sentiment_score := avg_score
        dominant_sentiment := dominant_sentiment
        dominant_emotion := dominant_emotion } }

/-- The observable behaviour of the external collaborators during one run of
`run_pipeline` (src/src/pipeline/runner.py lines 55-89): each field is the
value the corresponding call returns in that run. `split_audio_segments` is
recorded but, as in the source, only feeds the transcription call whose result
is itself a field here. -/
structure Collaborators where
  ensure_wav_audio : Bool
  diarize_audio : List Segment
  split_audio_segments : List String
  transcribe_segments : List TranscribedSegment × String
  classify_question : String → String × ℚ
  analyze_text : String → String → SentimentResult × EmotionResult

/-- The fixed placeholder sentiment assigned to questions
(src/src/pipeline/runner.py lines 108-112). -/
def questionSentiment : SentimentResult :=
  { label := "NEU", score := 95/100
    probabilities := [("NEG", 25/1000), ("NEU", 95/100), ("POS", 25/1000)] }

/-- The fixed placeholder emotion assigned to questions
(src/src/pipeline/runner.py lines 113-123). -/
def questionEmotion : EmotionResult :=
  { label := "others", score := 95/100
    probabilities := [("others", 95/100), ("joy", 8/1000), ("sadness", 8/1000),
      ("anger", 8/1000), ("surprise", 8/1000), ("disgust", 8/1000), ("fear", 8/1000)] }

/-- One iteration of the per-segment annotation loop of `run_pipeline`
(src/src/pipeline/runner.py lines 93-138): classify the role (empty trimmed
text short-circuits to "statement" without calling the classifier), look up
the speaker role with fallback to the raw speaker code (line 100), then pick
sentiment/emotion: absent for empty text, scored by `analyze_text` for
statements, fixed placeholders otherwise; finally build the `AnalyzedSegment`
with `segment_id = idx + 1` and `paired_with = None`. -/
def annotate_segment (classify : String → String × ℚ)
    (analyze : String → String → SentimentResult × EmotionResult)
    (speaker_map : List (String × String)) (lang : String)
    (idx : ℕ) (seg : TranscribedSegment) : AnalyzedSegment :=
  let role := if isBlank seg.text then "statement" else (classify seg.text).1
  let speaker_role := get_speaker_role seg.speaker speaker_map
  let se : Option SentimentResult × Option EmotionResult :=
    if isBlank seg.text then (none, none)
    else if role == "statement" then
      let r := analyze seg.text lang
      (some r.1, some r.2)
    else (some questionSentiment, some questionEmotion)
  { start := seg.start, end_ := seg.end_, speaker := seg.speaker
    text := seg.text, language := seg.language
    segment_id := (idx : ℤ) + 1, role := role, speaker_role := speaker_role
    sentiment := se.1, emotion := se.2, paired_with := none }

/-- The annotation loop of src/src/pipeline/runner.py lines 92-138 from loop
counter `idx` on: `for idx, seg in enumerate(transcribed)` appending one
`AnalyzedSegment` per transcribed segment, in segment order. -/
def annotate_from (classify : String → String × ℚ)
    (analyze : String → String → SentimentResult × EmotionResult)
    (speaker_map : List (String × String)) (lang : String) :
    ℕ → List TranscribedSegment → List AnalyzedSegment
  | _, [] => []
  | idx, seg :: rest =>
    annotate_segment classify analyze speaker_map lang idx seg ::
      annotate_from classify analyze speaker_map lang (idx + 1) rest

/-- The whole annotation loop of src/src/pipeline/runner.py lines 92-138
(`enumerate` starts at 0). -/
def annotate_segments (classify : String → String × ℚ)
    (analyze : String → String → SentimentResult × EmotionResult)
    (speaker_map : List (String × String)) (lang : String)
    (transcribed : List TranscribedSegment) : List AnalyzedSegment :=
  annotate_from classify analyze speaker_map lang 0 transcribed

/-- Embedding of `run_pipeline` from src/src/pipeline/runner.py lines 45-161, returning the
`InterviewAnalysis | None` result paired with the list of artifacts written by
`save_analysis` during the run (progress rendering is display-only and
omitted). A `false` conversion result (line 57) or an empty diarization
(line 64) returns `None` before any artifact is written; otherwise the run
resolves the working language (line 81), maps speakers, annotates every
transcribed segment, pairs questions with answers, computes the duration
`segments[-1].end - segments[0].start` and writes exactly one report. -/
def run_pipeline (C : Collaborators) (interview_id : String) (today : String) :
    Option InterviewAnalysis × List InterviewAnalysis :=
  if !C.ensure_wav_audio then (none, [])
  else
    let segments := C.diarize_audio
    if segments.isEmpty then (none, [])
    else
      let (transcribed, detected_lang) := C.transcribe_segments
      let lang := if ["es", "en", "it", "pt"].contains detected_lang then detected_lang else "en"
      let speaker_map := map_speakers transcribed
      let analyzed := annotate_segments C.classify_question C.analyze_text speaker_map lang transcribed
      let paired := pair_questions_answers analyzed
      let duration := match segments.head?, segments.getLast? with
        | some a, some b => b.end_ - a.start
        | _, _ => 0
      let analysis := generate_report paired duration detected_lang interview_id today
      (some analysis, [analysis])

/-- Forget the `paired_with` field: two segments agree under `erasePairing`
exactly when every field other than `paired_with` coincides. -/
def erasePairing (s : AnalyzedSegment) : AnalyzedSegment :=
  { s with paired_with := none }

/-- A neutral base segment for building concrete test inputs. -/
def baseSeg : AnalyzedSegment :=
  { start := 0, end_ := 1, speaker := "S0", text := "", language := "es",
    segment_id := 0, role := "statement", speaker_role := "Interviewee",
    sentiment := none, emotion := none, paired_with := none }

/-- A concrete interviewer question segment. -/
def interviewerQuestion (id : ℤ) (text : String) : AnalyzedSegment :=
  { baseSeg with
    segment_id := id, role := "question", speaker_role := "Interviewer", text := text }

/-- A concrete interviewee statement segment. -/
def intervieweeStatement (id : ℤ) (text : String) : AnalyzedSegment :=
  { baseSeg with segment_id := id, text := text }

/-- A concrete interviewee statement carrying a sentiment result. -/
def sentimentStatement (id : ℤ) (label : String) (score : ℚ) : AnalyzedSegment :=
  { intervieweeStatement id "ok" with
    sentiment := some { label := label, score := score, probabilities := [] } }

/-- A concrete transcribed segment. -/
def transSeg (sp text : String) : TranscribedSegment :=
  { start := 0, end_ := 1, speaker := sp, text := text, language := "es" }

/-- A stub classifier collaborator that always answers "question". -/
def stubClassifyQ : String → String × ℚ := fun _ => ("question", 9/10)

/-- A stub classifier collaborator that always answers "statement". -/
def stubClassifyS : String → String × ℚ := fun _ => ("statement", 9/10)

/-- A stub sentiment/emotion scoring collaborator. -/
def stubAnalyzeA : String → String → SentimentResult × EmotionResult :=
  fun _ _ => ({ label := "POS", score := 9/10, probabilities := [] },
    { label := "joy", score := 8/10, probabilities := [] })

/-- A second, different stub scoring collaborator. -/
def stubAnalyzeB : String → String → SentimentResult × EmotionResult :=
  fun _ _ => ({ label := "NEG", score := 7/10, probabilities := [] },
    { label := "sadness", score := 6/10, probabilities := [] })

/-- A collaborator bundle whose audio conversion reports failure. -/
def failedAudioCollab : Collaborators :=
  { ensure_wav_audio := false
    diarize_audio := [{ start := 0, end_ := 1, speaker := "S0" }]
    split_audio_segments := []
    transcribe_segments := ([], "es")
    classify_question := stubClassifyS
    analyze_text := stubAnalyzeA }

/-- A collaborator bundle whose diarization returns zero segments. -/
def emptyDiarizeCollab : Collaborators :=
  { failedAudioCollab with
    ensure_wav_audio := true, diarize_audio := [] }

/-! ### Scan equations of the pairer -/

theorem pairQA_nil : pair_questions_answers [] = [] := by
  simp [pair_questions_answers]

theorem pairQA_cons_anchor (s : AnalyzedSegment) (rest : List AnalyzedSegment)
    (h : isAnchor s = true) :
    pair_questions_answers (s :: rest) =
      anchorResult s (rest.takeWhile notInterviewer) ::
        ((rest.takeWhile notInterviewer).map (pairToQuestion s.segment_id) ++
          pair_questions_answers (rest.dropWhile notInterviewer)) := by
  rw [pair_questions_answers]
  simp [h]

theorem pairQA_cons_of_not_anchor (s : AnalyzedSegment) (rest : List AnalyzedSegment)
    (h : isAnchor s = false) :
    pair_questions_answers (s :: rest) = s :: pair_questions_answers rest := by
  rw [pair_questions_answers]
  simp [h]

theorem takeWhile_append_stop {α : Type} (p : α → Bool) (u : List α) (b : α) (v : List α)
    (hb : p b = false) : (u ++ b :: v).takeWhile p = u.takeWhile p := by
  induction u with
  | nil => simp [List.takeWhile_cons, hb]
  | cons x u ih => cases hx : p x <;> simp [List.takeWhile_cons, hx, ih]

theorem dropWhile_append_stop {α : Type} (p : α → Bool) (u : List α) (b : α) (v : List α)
    (hb : p b = false) : (u ++ b :: v).dropWhile p = u.dropWhile p ++ b :: v := by
  induction u with
  | nil => simp [List.dropWhile_cons, hb]
  | cons x u ih => cases hx : p x <;> simp [List.dropWhile_cons, hx, ih]

/-- The outer scan visits every Interviewer segment: processing distributes
over a split of the list at an Interviewer segment, because no pairing run
started on the left of it can reach past it. -/
theorem pairQA_split : ∀ (pre : List AnalyzedSegment) {a : AnalyzedSegment}
    (rest : List AnalyzedSegment), notInterviewer a = false →
    pair_questions_answers (pre ++ a :: rest) =
      pair_questions_answers pre ++ pair_questions_answers (a :: rest)
  | [], _, rest, _ => by simp [pairQA_nil]
  | s :: pre, a, rest, ha => by
    by_cases h : isAnchor s
    · have htw := takeWhile_append_stop notInterviewer pre a rest ha
      have hdw := dropWhile_append_stop notInterviewer pre a rest ha
      rw [List.cons_append, pairQA_cons_anchor s _ h, htw, hdw,
        pairQA_split (pre.dropWhile notInterviewer) rest ha,
        pairQA_cons_anchor s pre h]
      simp
    · rw [List.cons_append, pairQA_cons_of_not_anchor s _ (by simpa using h),
        pairQA_split pre rest ha, pairQA_cons_of_not_anchor s pre (by simpa using h)]
      simp
termination_by pre => pre.length
decreasing_by
  · exact Nat.lt_succ_of_le (List.IsSuffix.length_le (List.dropWhile_suffix _))
  · exact Nat.lt_succ_self _

/-- Unfolding the scan at an anchor whose following maximal run of
non-Interviewer segments is `run`: `post` is either empty or starts with an
Interviewer segment. -/
theorem pairQA_anchor_block {a : AnalyzedSegment} {run post : List AnalyzedSegment}
    (ha : isAnchor a = true) (hrun : ∀ t ∈ run, notInterviewer t = true)
    (hpost : ∀ b ∈ post.head?, notInterviewer b = false) :
    pair_questions_answers (a :: (run ++ post)) =
      anchorResult a run ::
        (run.map (pairToQuestion a.segment_id) ++ pair_questions_answers post) := by
  have htw : (run ++ post).takeWhile notInterviewer = run := by
    rw [List.takeWhile_append_of_pos hrun]
    cases post with
    | nil => simp
    | cons b v => simp [List.takeWhile_cons, hpost b rfl]
  have hdw : (run ++ post).dropWhile notInterviewer = post := by
    rw [List.dropWhile_append_of_pos hrun]
    cases post with
    | nil => simp
    | cons b v => simp [List.dropWhile_cons, hpost b rfl]
  rw [pairQA_cons_anchor a _ ha, htw, hdw]

theorem erasePairing_pairToQuestion (q : ℤ) (t : AnalyzedSegment) :
    erasePairing (pairToQuestion q t) = erasePairing t := by
  unfold pairToQuestion
  split <;> rfl

theorem erasePairing_anchorResult (s : AnalyzedSegment) (run : List AnalyzedSegment) :
    erasePairing (anchorResult s run) = erasePairing s := by
  unfold anchorResult
  split
  · split <;> rfl
  · rfl

/-- The pairer preserves everything except `paired_with`. -/
theorem pairQA_map_erasePairing : ∀ (segs : List AnalyzedSegment),
    (pair_questions_answers segs).map erasePairing = segs.map erasePairing
  | [] => by simp [pairQA_nil]
  | s :: rest => by
    by_cases h : isAnchor s
    · rw [pairQA_cons_anchor s rest h]
      have hrec := pairQA_map_erasePairing (rest.dropWhile notInterviewer)
      simp only [List.map_cons, List.map_append, List.map_map, hrec,
        erasePairing_anchorResult]
      have hcomp : (erasePairing ∘ pairToQuestion s.segment_id) = erasePairing :=
        funext (erasePairing_pairToQuestion s.segment_id)
      rw [hcomp, ← List.map_append, List.takeWhile_append_dropWhile]
    · rw [pairQA_cons_of_not_anchor s rest (by simpa using h)]
      simp [pairQA_map_erasePairing rest]
termination_by segs => segs.length
decreasing_by
  · exact Nat.lt_succ_of_le (List.IsSuffix.length_le (List.dropWhile_suffix _))
  · exact Nat.lt_succ_self _

theorem pairQA_length (segs : List AnalyzedSegment) :
    (pair_questions_answers segs).length = segs.length := by
  have h := congrArg List.length (pairQA_map_erasePairing segs)
  simpa using h

/-- C7: `pair_questions_answers` returns the same sequence of segments in the
same order (the empty list unchanged), and every field other than
`paired_with` is unchanged on every segment: the output has the input's
length and agrees with the input pointwise after forgetting `paired_with`.
(In the in-place Python loop `paired_with` is additionally written at most
once per segment, which the functional scan realises by construction: each
position is produced by exactly one `pairToQuestion`/`anchorResult` update.) -/
theorem pairer_frame_preservation (segs : List AnalyzedSegment) :
    pair_questions_answers ([] : List AnalyzedSegment) = []
    ∧ (pair_questions_answers segs).length = segs.length
    ∧ (pair_questions_answers segs).map erasePairing = segs.map erasePairing :=
  ⟨pairQA_nil, pairQA_length segs, pairQA_map_erasePairing segs⟩

theorem notInterviewer_of_isAnchor {a : AnalyzedSegment} (h : isAnchor a = true) :
    notInterviewer a = false := by
  unfold isAnchor at h
  unfold notInterviewer
  rw [Bool.and_eq_true] at h
  rw [h.1]
  rfl

/-- The output segment at an anchor's position is the anchor as updated by
`anchorResult` from its run. -/
theorem pairQA_get_anchor (pre : List AnalyzedSegment) {a : AnalyzedSegment}
    {run post : List AnalyzedSegment} (ha : isAnchor a = true)
    (hrun : ∀ t ∈ run, notInterviewer t = true)
    (hpost : ∀ b ∈ post.head?, notInterviewer b = false) :
    (pair_questions_answers (pre ++ a :: (run ++ post)))[pre.length]? =
      some (anchorResult a run) := by
  rw [pairQA_split pre _ (notInterviewer_of_isAnchor ha),
    pairQA_anchor_block ha hrun hpost]
  have hl : (pair_questions_answers pre).length = pre.length := pairQA_length pre
  rw [List.getElem?_append_right (le_of_eq hl)]
  simp [hl]

/-- C1 (amended): for every anchor (Interviewer-question segment) whose
following maximal run of non-Interviewer segments is `run`, after the run
ends: if the run held at least one segment with non-blank text AND the first
such segment's `segment_id` is non-zero, the anchor's `paired_with` becomes
that id; if the run held no such segment — or (Python truthiness of
`if first_answer_id:`) the first such segment's id is exactly 0 — the
anchor's `paired_with` stays absent. -/
theorem anchor_pairing_truthy (pre : List AnalyzedSegment) {a : AnalyzedSegment}
    {run post : List AnalyzedSegment} (ha : isAnchor a = true)
    (hrun : ∀ t ∈ run, notInterviewer t = true)
    (hpost : ∀ b ∈ post.head?, notInterviewer b = false)
    (hnone : a.paired_with = none) :
    (run.filter hasText = [] →
      (pair_questions_answers (pre ++ a :: (run ++ post)))[pre.length]? = some a)
    ∧ (∀ w, (run.filter hasText).head? = some w →
        (w.segment_id ≠ 0 →
          (pair_questions_answers (pre ++ a :: (run ++ post)))[pre.length]? =
            some { a with paired_with := some w.segment_id })
        ∧ (w.segment_id = 0 →
          (pair_questions_answers (pre ++ a :: (run ++ post)))[pre.length]? = some a)) := by
  have hg := pairQA_get_anchor pre ha hrun hpost
  refine ⟨fun hempty => ?_, fun w hw => ⟨fun hnz => ?_, fun hz => ?_⟩⟩
  · rw [hg]
    unfold anchorResult first_answer_id
    rw [hempty]
    rfl
  · rw [hg]
    unfold anchorResult first_answer_id
    rw [hw]
    simp [hnz]
  · rw [hg]
    unfold anchorResult first_answer_id
    rw [hw]
    simp [hz]

theorem anchor_pairing_truthy_witness :
    (pair_questions_answers
      [interviewerQuestion 1 "q?", intervieweeStatement 2 "ans"])[0]? =
      some { interviewerQuestion 1 "q?" with paired_with := some 2 } := by
  have h := (@anchor_pairing_truthy ([] : List AnalyzedSegment)
    (interviewerQuestion 1 "q?") [intervieweeStatement 2 "ans"]
    ([] : List AnalyzedSegment) (by decide) (by decide) (by simp) rfl).2
      (intervieweeStatement 2 "ans") (by decide)
  exact h.1 (by decide)

/-- C1, counterexample to the claim as stated: a run containing a qualifying
first answer whose `segment_id` is 0; the anchor's `paired_with` stays `none`
instead of becoming `some 0` (while the answer itself still points back). -/
theorem anchor_zero_id_counterexample :
    isAnchor (interviewerQuestion 1 "q?") = true
    ∧ notInterviewer (intervieweeStatement 0 "ans") = true
    ∧ hasText (intervieweeStatement 0 "ans") = true
    ∧ (intervieweeStatement 0 "ans").segment_id = 0
    ∧ (interviewerQuestion 1 "q?").paired_with = none
    ∧ (pair_questions_answers
        [interviewerQuestion 1 "q?", intervieweeStatement 0 "ans"]).map
          AnalyzedSegment.paired_with = [none, some 1] := by
  refine ⟨by decide, by decide, by decide, rfl, rfl, ?_⟩
  rw [pairQA_cons_anchor _ _ (by decide)]
  rw [List.takeWhile_cons_of_pos (by decide), List.takeWhile_nil,
      List.dropWhile_cons_of_pos (by decide), List.dropWhile_nil, pairQA_nil]
  decide

/-- C5: two consecutive anchors: the first one's pairing run is empty, so its
`paired_with` stays absent; and the spec's three-segment example pairs only
the second question with the answer. -/
theorem consecutive_questions_unpaired (pre : List AnalyzedSegment)
    {a b : AnalyzedSegment} (rest : List AnalyzedSegment)
    (ha : isAnchor a = true) (hb : isAnchor b = true) (hnone : a.paired_with = none) :
    (pair_questions_answers (pre ++ a :: b :: rest))[pre.length]? = some a
    ∧ pair_questions_answers
        [interviewerQuestion 1 "q0", interviewerQuestion 2 "q1", intervieweeStatement 3 "a2"] =
      [interviewerQuestion 1 "q0",
       { interviewerQuestion 2 "q1" with paired_with := some 3 },
       { intervieweeStatement 3 "a2" with paired_with := some 2 }] := by
  constructor
  · have hg := @pairQA_get_anchor pre a ([] : List AnalyzedSegment)
      (b :: rest) ha (by intro t ht; simp at ht)
      (by
        intro c hc
        simp only [List.head?_cons, Option.mem_def, Option.some.injEq] at hc
        subst hc
        exact notInterviewer_of_isAnchor hb)
    simpa using hg
  · rw [pairQA_cons_anchor _ _ (by decide)]
    rw [List.takeWhile_cons_of_neg (by decide), List.dropWhile_cons_of_neg (by decide)]
    rw [pairQA_cons_anchor _ _ (by decide)]
    rw [List.takeWhile_cons_of_pos (by decide), List.takeWhile_nil,
        List.dropWhile_cons_of_pos (by decide), List.dropWhile_nil, pairQA_nil]
    decide

theorem consecutive_questions_unpaired_witness :
    (pair_questions_answers
      [interviewerQuestion 9 "qa", interviewerQuestion 8 "qb"])[0]? =
      some (interviewerQuestion 9 "qa") :=
  (consecutive_questions_unpaired ([] : List AnalyzedSegment)
    ([] : List AnalyzedSegment) (by decide) (by decide) rfl).1

/-- C6: within an anchor's pairing run, every member with non-blank text
gets `paired_with := ` the anchor's `segment_id`, every blank-text member is
returned unchanged (so it never receives a `paired_with` value), the
recorded first answer is always a non-blank-text member, and the outer scan
resumes exactly after the run. -/
theorem run_members_pairing (pre : List AnalyzedSegment) {a : AnalyzedSegment}
    {run post : List AnalyzedSegment} (ha : isAnchor a = true)
    (hrun : ∀ t ∈ run, notInterviewer t = true)
    (hpost : ∀ b ∈ post.head?, notInterviewer b = false) :
    (∀ j (hj : j < run.length),
        (hasText (run.get ⟨j, hj⟩) = true →
          (pair_questions_answers (pre ++ a :: (run ++ post)))[pre.length + 1 + j]? =
            some { run.get ⟨j, hj⟩ with paired_with := some a.segment_id })
        ∧ (hasText (run.get ⟨j, hj⟩) = false →
          (pair_questions_answers (pre ++ a :: (run ++ post)))[pre.length + 1 + j]? =
            some (run.get ⟨j, hj⟩)))
    ∧ (∀ w, first_answer_id run = some w →
        ∃ t, (run.filter hasText).head? = some t ∧ hasText t = true ∧ w = t.segment_id)
    ∧ (pair_questions_answers (pre ++ a :: (run ++ post))).drop
        (pre.length + 1 + run.length) = pair_questions_answers post := by
  have hsplit : pair_questions_answers (pre ++ a :: (run ++ post)) =
      pair_questions_answers pre ++
        (anchorResult a run ::
          (run.map (pairToQuestion a.segment_id) ++ pair_questions_answers post)) := by
    rw [pairQA_split pre _ (notInterviewer_of_isAnchor ha),
      pairQA_anchor_block ha hrun hpost]
  have hl : (pair_questions_answers pre).length = pre.length := pairQA_length pre
  refine ⟨fun j hj => ?_, fun w hw => ?_, ?_⟩
  · have hidx : (pair_questions_answers (pre ++ a :: (run ++ post)))[pre.length + 1 + j]? =
        some (pairToQuestion a.segment_id (run.get ⟨j, hj⟩)) := by
      rw [hsplit, List.getElem?_append_right (by omega)]
      have h1 : pre.length + 1 + j - (pair_questions_answers pre).length = j + 1 := by omega
      rw [h1, List.getElem?_cons_succ,
        List.getElem?_append_left (by simpa using hj), List.getElem?_map,
        List.getElem?_eq_getElem hj]
      rfl
    constructor
    · intro htext
      rw [hidx]
      unfold pairToQuestion
      rw [htext]
      simp
    · intro htext
      rw [hidx]
      unfold pairToQuestion
      rw [htext]
      simp
  · unfold first_answer_id at hw
    rcases hfil : (run.filter hasText).head? with _ | t
    · rw [hfil] at hw
      simp at hw
    · rw [hfil] at hw
      refine ⟨t, rfl, ?_, by simpa using hw.symm⟩
      rcases hl2 : run.filter hasText with _ | ⟨t', ts⟩
      · rw [hl2] at hfil
        simp at hfil
      · rw [hl2] at hfil
        simp only [List.head?_cons, Option.some.injEq] at hfil
        have ht' : t' ∈ run.filter hasText := hl2 ▸ List.mem_cons_self t' ts
        rw [← hfil]
        exact (List.mem_filter.mp ht').2
  · rw [hsplit]
    rw [show anchorResult a run ::
        (run.map (pairToQuestion a.segment_id) ++ pair_questions_answers post) =
        (anchorResult a run :: run.map (pairToQuestion a.segment_id)) ++
          pair_questions_answers post from by simp]
    rw [← List.append_assoc]
    exact List.drop_left' (by simp [hl]; omega)

theorem run_members_pairing_witness :
    (pair_questions_answers [interviewerQuestion 1 "q?", intervieweeStatement 2 " ",
        intervieweeStatement 3 "ans"])[1]? = some (intervieweeStatement 2 " ")
    ∧ (pair_questions_answers [interviewerQuestion 1 "q?", intervieweeStatement 2 " ",
        intervieweeStatement 3 "ans"])[2]? =
        some { intervieweeStatement 3 "ans" with paired_with := some 1 } := by
  have h := @run_members_pairing ([] : List AnalyzedSegment)
    (interviewerQuestion 1 "q?")
    [intervieweeStatement 2 " ", intervieweeStatement 3 "ans"]
    ([] : List AnalyzedSegment) (by decide) (by decide) (by simp)
  exact ⟨(h.1 0 (by decide)).2 (by decide), (h.1 1 (by decide)).1 (by decide)⟩

/-! ### Orchestrator: annotation loop and failure policy -/

theorem annotate_from_length (classify : String → String × ℚ)
    (analyze : String → String → SentimentResult × EmotionResult)
    (sm : List (String × String)) (lang : String) :
    ∀ (k : ℕ) (ts : List TranscribedSegment),
      (annotate_from classify analyze sm lang k ts).length = ts.length
  | _, [] => rfl
  | k, _ :: rest => by
    simp [annotate_from, annotate_from_length classify analyze sm lang (k + 1) rest]

theorem annotate_from_getElem? (classify : String → String × ℚ)
    (analyze : String → String → SentimentResult × EmotionResult)
    (sm : List (String × String)) (lang : String) :
    ∀ (k i : ℕ) (ts : List TranscribedSegment),
      (annotate_from classify analyze sm lang k ts)[i]? =
        (ts[i]?).map (fun t => annotate_segment classify analyze sm lang (k + i) t)
  | _, _, [] => by simp [annotate_from]
  | k, 0, seg :: rest => by simp [annotate_from]
  | k, i + 1, seg :: rest => by
    have hk : k + 1 + i = k + (i + 1) := by omega
    simp only [annotate_from, List.getElem?_cons_succ,
      annotate_from_getElem? classify analyze sm lang (k + 1) i rest, hk]

/-- C10: the analyzed list has the same length and order as the transcribed
list; position `i` carries `segment_id = i + 1`, `paired_with = none` and the
transcribed segment's own data; hence segment ids are unique, consecutive and
strictly positive before pairing. -/
theorem orchestrator_segment_ids (classify : String → String × ℚ)
    (analyze : String → String → SentimentResult × EmotionResult)
    (sm : List (String × String)) (lang : String) (ts : List TranscribedSegment) :
    (annotate_segments classify analyze sm lang ts).length = ts.length
    ∧ (∀ (i : ℕ) (s : AnalyzedSegment) (t : TranscribedSegment),
        (annotate_segments classify analyze sm lang ts)[i]? = some s →
        ts[i]? = some t →
        s.segment_id = (i : ℤ) + 1 ∧ s.paired_with = none
        ∧ s.start = t.start ∧ s.end_ = t.end_ ∧ s.speaker = t.speaker
        ∧ s.text = t.text ∧ s.language = t.language ∧ 0 < s.segment_id)
    ∧ (∀ (i j : ℕ) (s s' : AnalyzedSegment),
        (annotate_segments classify analyze sm lang ts)[i]? = some s →
        (annotate_segments classify analyze sm lang ts)[j]? = some s' →
        s.segment_id = s'.segment_id → i = j) := by
  have hid : ∀ (i : ℕ) (s : AnalyzedSegment),
      (annotate_segments classify analyze sm lang ts)[i]? = some s →
      s.segment_id = (i : ℤ) + 1 := by
    intro i s hs
    rw [annotate_segments, annotate_from_getElem?] at hs
    rcases ht : ts[i]? with _ | t
    · rw [ht] at hs
      simp at hs
    · rw [ht] at hs
      simp only [Option.map_some', Option.some.injEq] at hs
      rw [← hs]
      show ((0 + i : ℕ) : ℤ) + 1 = (i : ℤ) + 1
      congr 1
      omega
  refine ⟨annotate_from_length classify analyze sm lang 0 ts, ?_, ?_⟩
  · intro i s t hs ht
    have hseg := hid i s hs
    rw [annotate_segments, annotate_from_getElem?, ht] at hs
    simp only [Option.map_some', Option.some.injEq] at hs
    rw [← hs]
    refine ⟨hs ▸ hseg, rfl, rfl, rfl, rfl, rfl, rfl, ?_⟩
    rw [hs, hseg]
    positivity
  · intro i j s s' hs hs' heq
    have h1 := hid i s hs
    have h2 := hid j s' hs'
    rw [h1, h2] at heq
    omega

theorem orchestrator_segment_ids_witness :
    (annotate_segments stubClassifyS stubAnalyzeA [] "es"
      [transSeg "A" "hola", transSeg "B" "mundo"]).length = 2
    ∧ (∃ s, (annotate_segments stubClassifyS stubAnalyzeA [] "es"
        [transSeg "A" "hola", transSeg "B" "mundo"])[1]? = some s
        ∧ s.segment_id = 2 ∧ s.paired_with = none ∧ s.speaker = "B") := by
  have h := orchestrator_segment_ids stubClassifyS stubAnalyzeA [] "es"
    [transSeg "A" "hola", transSeg "B" "mundo"]
  refine ⟨h.1, ⟨annotate_segment stubClassifyS stubAnalyzeA [] "es" 1 (transSeg "B" "mundo"),
    rfl, ?_⟩⟩
  have h2 := h.2.1 1 (annotate_segment stubClassifyS stubAnalyzeA [] "es" 1 (transSeg "B" "mundo"))
    (transSeg "B" "mundo") rfl rfl
  exact ⟨h2.1, h2.2.1, h2.2.2.2.2.1⟩

/-- C9: in the per-segment annotation step, a blank-text segment gets
`role = "statement"` with absent sentiment and emotion, independently of both
the classifier and the scoring collaborator (they are not invoked); a
non-blank segment classified "question" gets the fixed placeholder sentiment
and emotion, independently of the scoring collaborator. -/
theorem annotation_shortcuts (classify classify' : String → String × ℚ)
    (analyze analyze' : String → String → SentimentResult × EmotionResult)
    (sm : List (String × String)) (lang : String) (idx : ℕ) (seg : TranscribedSegment) :
    (isBlank seg.text = true →
      annotate_segment classify analyze sm lang idx seg =
        annotate_segment classify' analyze' sm lang idx seg
      ∧ (annotate_segment classify analyze sm lang idx seg).role = "statement"
      ∧ (annotate_segment classify analyze sm lang idx seg).sentiment = none
      ∧ (annotate_segment classify analyze sm lang idx seg).emotion = none)
    ∧ (isBlank seg.text = false → (classify seg.text).1 = "question" →
      annotate_segment classify analyze sm lang idx seg =
        annotate_segment classify analyze' sm lang idx seg
      ∧ (annotate_segment classify analyze sm lang idx seg).role = "question"
      ∧ (annotate_segment classify analyze sm lang idx seg).sentiment = some questionSentiment
      ∧ (annotate_segment classify analyze sm lang idx seg).emotion = some questionEmotion) := by
  constructor
  · intro hb
    unfold annotate_segment
    simp [hb]
  · intro hb hq
    unfold annotate_segment
    simp [hb, hq]

theorem annotation_shortcuts_witness :
    ((annotate_segment stubClassifyQ stubAnalyzeA [] "es" 0 (transSeg "A" "  ")).sentiment = none
      ∧ (annotate_segment stubClassifyQ stubAnalyzeA [] "es" 0 (transSeg "A" "  ")).role =
        "statement")
    ∧ (annotate_segment stubClassifyQ stubAnalyzeA [] "es" 0 (transSeg "A" "hola")).sentiment =
        some questionSentiment := by
  have h1 := (annotation_shortcuts stubClassifyQ stubClassifyS stubAnalyzeA stubAnalyzeB
    [] "es" 0 (transSeg "A" "  ")).1 (by decide)
  have h2 := (annotation_shortcuts stubClassifyQ stubClassifyS stubAnalyzeA stubAnalyzeB
    [] "es" 0 (transSeg "A" "hola")).2 (by decide) rfl
  exact ⟨⟨h1.2.2.1, h1.2.1⟩, h2.2.2.1⟩

/-- C8: a failed audio conversion or an empty diarization aborts the run with
an absent result, and `save_analysis` is never reached: the write log of the
run is empty, so no (even partial) artifact exists. -/
theorem fatal_failures_abort (C : Collaborators) (interview_id today : String)
    (h : C.ensure_wav_audio = false ∨ C.diarize_audio = []) :
    run_pipeline C interview_id today = (none, []) := by
  unfold run_pipeline
  rcases h with h | h
  · simp [h]
  · cases hw : C.ensure_wav_audio <;> simp [h, hw]

theorem fatal_failures_abort_witness :
    run_pipeline failedAudioCollab "i1" "2026-10-12" = (none, [])
    ∧ run_pipeline emptyDiarizeCollab "i1" "2026-10-12" = (none, []) :=
  ⟨fatal_failures_abort failedAudioCollab "i1" "2026-10-12" (Or.inl rfl),
    fatal_failures_abort emptyDiarizeCollab "i1" "2026-10-12" (Or.inr rfl)⟩

/-! ### Speaker mapper -/

theorem mem_firstOcc_foldl : ∀ (xs acc : List String) (s : String),
    s ∈ xs.foldl (fun a t => if t ∈ a then a else a ++ [t]) acc ↔ s ∈ acc ∨ s ∈ xs
  | [], acc, s => by simp
  | x :: xs, acc, s => by
    simp only [List.foldl_cons]
    rw [mem_firstOcc_foldl xs _ s]
    by_cases hx : x ∈ acc
    · rw [if_pos hx]
      simp only [List.mem_cons]
      constructor
      · rintro (h | h)
        · exact Or.inl h
        · exact Or.inr (Or.inr h)
      · rintro (h | h | h)
        · exact Or.inl h
        · exact Or.inl (h ▸ hx)
        · exact Or.inr h
    · rw [if_neg hx]
      simp only [List.mem_append, List.mem_cons, List.not_mem_nil, or_false]
      tauto

theorem nodup_firstOcc_foldl : ∀ (xs acc : List String), acc.Nodup →
    (xs.foldl (fun a t => if t ∈ a then a else a ++ [t]) acc).Nodup
  | [], _, h => h
  | x :: xs, acc, h => by
    simp only [List.foldl_cons]
    apply nodup_firstOcc_foldl xs
    by_cases hx : x ∈ acc
    · rwa [if_pos hx]
    · rw [if_neg hx]
      refine List.Nodup.append h (List.nodup_singleton x) ?_
      intro a ha hb
      rw [List.mem_singleton] at hb
      exact hx (hb ▸ ha)

theorem mem_firstOccurrences {xs : List String} {s : String} :
    s ∈ firstOccurrences xs ↔ s ∈ xs := by
  unfold firstOccurrences
  rw [mem_firstOcc_foldl]
  simp

theorem nodup_firstOccurrences (xs : List String) : (firstOccurrences xs).Nodup :=
  nodup_firstOcc_foldl xs [] List.nodup_nil

theorem mem_counterItems {xs : List String} {p : String × ℕ} :
    p ∈ counterItems xs ↔ p.1 ∈ xs ∧ p.2 = xs.count p.1 := by
  unfold counterItems
  rw [List.mem_map]
  constructor
  · rintro ⟨s, hs, rfl⟩
    exact ⟨mem_firstOccurrences.mp hs, rfl⟩
  · rintro ⟨h1, h2⟩
    exact ⟨p.1, mem_firstOccurrences.mpr h1, by rw [← h2]⟩

theorem mostCommon_perm (items : List (String × ℕ)) : (mostCommon items).Perm items :=
  List.mergeSort_perm items _

theorem mostCommon_sorted (items : List (String × ℕ)) :
    (mostCommon items).Pairwise (fun a b => b.2 ≤ a.2) := by
  unfold mostCommon
  refine List.Pairwise.imp (fun hab => by simpa using hab)
    (List.sorted_mergeSort ?_ ?_ items)
  · intro a b c hab hbc
    simp only [decide_eq_true_eq] at *
    omega
  · intro a b
    simp only [Bool.or_eq_true, decide_eq_true_eq]
    omega

theorem lookup_cons_eq (k v : String) (l : List (String × String)) :
    ((k, v) :: l).lookup k = some v := by
  simp [List.lookup]

theorem lookup_cons_ne (k k' v : String) (l : List (String × String)) (h : (k' == k) = false) :
    ((k, v) :: l).lookup k' = l.lookup k' := by
  simp [List.lookup, h]

theorem lookup_map_const : ∀ (l : List (String × ℕ)) (t v : String),
    (∃ p ∈ l, p.1 = t) → (l.map fun p => (p.1, v)).lookup t = some v
  | [], t, v, h => by
    rcases h with ⟨p, hp, _⟩
    simp at hp
  | q :: l, t, v, h => by
    rw [List.map_cons]
    by_cases hq : (q.1 == t) = true
    · rw [show q.1 = t from by simpa using hq]
      exact lookup_cons_eq t v _
    · have hne : q.1 ≠ t := by simpa using hq
      rw [lookup_cons_ne _ _ _ _ (beq_eq_false_iff_ne.mpr (Ne.symm hne))]
      rcases h with ⟨p, hp, hpt⟩
      rcases List.mem_cons.mp hp with rfl | hpl
      · exact absurd (by simp [hpt]) hq
      · exact lookup_map_const l t v ⟨p, hpl, hpt⟩

/-- The unique minimum-count speaker ends first in the reversed
`most_common()` order, hence is mapped to "Interviewer"; all other observed
speakers are mapped to "Interviewee". -/
theorem map_speakers_min_lookup {segs : List TranscribedSegment} {s : String}
    (hs : s ∈ segs.map TranscribedSegment.speaker)
    (hmin : ∀ t ∈ segs.map TranscribedSegment.speaker, t ≠ s →
      (segs.map TranscribedSegment.speaker).count s <
        (segs.map TranscribedSegment.speaker).count t) :
    (map_speakers segs).lookup s = some "Interviewer"
    ∧ ∀ t ∈ segs.map TranscribedSegment.speaker, t ≠ s →
        (map_speakers segs).lookup t = some "Interviewee" := by
  have hci : ∀ p : String × ℕ,
      p ∈ (mostCommon (counterItems (segs.map TranscribedSegment.speaker))).reverse ↔
      p ∈ counterItems (segs.map TranscribedSegment.speaker) := by
    intro p
    rw [List.mem_reverse]
    exact (mostCommon_perm _).mem_iff
  have hasc : ((mostCommon (counterItems (segs.map TranscribedSegment.speaker))).reverse).Pairwise
      (fun a b => a.2 ≤ b.2) := by
    rw [List.pairwise_reverse]
    exact mostCommon_sorted _
  have hnonempty : ¬(segs.isEmpty = true) := by
    rcases List.mem_map.mp hs with ⟨t, ht, _⟩
    cases segs
    · simp at ht
    · simp
  rcases hrev : (mostCommon (counterItems (segs.map TranscribedSegment.speaker))).reverse
    with _ | ⟨first, others⟩
  · exfalso
    have hm := (hci (s, (segs.map TranscribedSegment.speaker).count s)).mpr
      (mem_counterItems.mpr ⟨hs, rfl⟩)
    rw [hrev] at hm
    simp at hm
  have hms : map_speakers segs =
      (first.1, "Interviewer") :: others.map fun p => (p.1, "Interviewee") := by
    unfold map_speakers
    rw [if_neg hnonempty, hrev]
  have hfirst_mem : first ∈ counterItems (segs.map TranscribedSegment.speaker) :=
    (hci first).mp (by rw [hrev]; exact List.mem_cons_self _ _)
  have hfirst := mem_counterItems.mp hfirst_mem
  have hfs : first.1 = s := by
    by_contra hne
    have h1 : (segs.map TranscribedSegment.speaker).count s <
        (segs.map TranscribedSegment.speaker).count first.1 := hmin first.1 hfirst.1 hne
    have h2 := (hci (s, (segs.map TranscribedSegment.speaker).count s)).mpr
      (mem_counterItems.mpr ⟨hs, rfl⟩)
    rw [hrev] at h2
    rcases List.mem_cons.mp h2 with heq | hmem
    · exact hne (by rw [← heq])
    · have h3 := (List.pairwise_cons.mp (hrev ▸ hasc)).1 _ hmem
      rw [hfirst.2] at h3
      simp only at h3
      omega
  constructor
  · rw [hms, hfs]
    exact lookup_cons_eq s "Interviewer" _
  · intro t ht hts
    have htmem : (t, (segs.map TranscribedSegment.speaker).count t) ∈ others := by
      have h2 := (hci (t, (segs.map TranscribedSegment.speaker).count t)).mpr
        (mem_counterItems.mpr ⟨ht, rfl⟩)
      rw [hrev] at h2
      rcases List.mem_cons.mp h2 with heq | hmem
      · exact absurd (by rw [← hfs, ← heq]) hts
      · exact hmem
    rw [hms, hfs, lookup_cons_ne s t _ _ (beq_eq_false_iff_ne.mpr hts)]
    exact lookup_map_const others t "Interviewee"
      ⟨(t, (segs.map TranscribedSegment.speaker).count t), htmem, rfl⟩

/-- C4: on a non-empty segment list with a unique minimum-count speaker, that
speaker maps to "Interviewer" and every other observed speaker to
"Interviewee"; the empty list yields the empty mapping; with a single
distinct speaker, that speaker maps to "Interviewer". -/
theorem mapper_unique_minimum (segs : List TranscribedSegment) :
    map_speakers ([] : List TranscribedSegment) = []
    ∧ (∀ s : String, s ∈ segs.map TranscribedSegment.speaker →
        (∀ t ∈ segs.map TranscribedSegment.speaker, t ≠ s →
          (segs.map TranscribedSegment.speaker).count s <
            (segs.map TranscribedSegment.speaker).count t) →
        (map_speakers segs).lookup s = some "Interviewer"
        ∧ ∀ t ∈ segs.map TranscribedSegment.speaker, t ≠ s →
            (map_speakers segs).lookup t = some "Interviewee")
    ∧ (∀ s : String, s ∈ segs.map TranscribedSegment.speaker →
        (∀ t ∈ segs.map TranscribedSegment.speaker, t = s) →
        (map_speakers segs).lookup s = some "Interviewer") :=
  ⟨rfl,
    fun _ hs hmin => map_speakers_min_lookup hs hmin,
    fun _ hs hall =>
      (map_speakers_min_lookup hs (fun t ht hts => absurd (hall t ht) hts)).1⟩

theorem mapper_unique_minimum_witness :
    (map_speakers [transSeg "A" "x", transSeg "B" "y", transSeg "B" "z"]).lookup "A" =
      some "Interviewer"
    ∧ (map_speakers [transSeg "A" "x", transSeg "B" "y", transSeg "B" "z"]).lookup "B" =
      some "Interviewee" := by
  have h := (mapper_unique_minimum [transSeg "A" "x", transSeg "B" "y", transSeg "B" "z"]).2.1
    "A" (by decide) (by decide)
  exact ⟨h.1, h.2 "B" (by decide) (by decide)⟩

/-! ### Report aggregator -/

theorem sum_counterItems_counts (xs : List String) :
    ((counterItems xs).map Prod.snd).sum = xs.length := by
  unfold counterItems
  rw [List.map_map]
  calc ((firstOccurrences xs).map (Prod.snd ∘ fun s => (s, xs.count s))).sum
      = ∑ a in (firstOccurrences xs).toFinset, xs.count a :=
        (List.sum_toFinset _ (nodup_firstOccurrences xs)).symm
    _ = ∑ a in xs.toFinset, xs.count a := by
        apply Finset.sum_congr _ (fun _ _ => rfl)
        ext a
        simp [List.mem_toFinset, mem_firstOccurrences]
    _ = xs.length := List.sum_toFinset_count_eq_length xs

theorem calculate_distribution_counts (items : List String) (total : ℕ) :
    ((calculate_distribution items total).map fun p => p.2.count).sum = items.length := by
  unfold calculate_distribution
  rw [List.map_map]
  exact sum_counterItems_counts items

theorem calculate_distribution_percentage {items : List String} {total : ℕ}
    {p : String × SentimentDistribution} (hp : p ∈ calculate_distribution items total) :
    p.2.percentage =
      if 0 < total then pyRound (100 * (p.2.count : ℚ) / (total : ℚ)) 1 else 0 := by
  unfold calculate_distribution at hp
  rcases List.mem_map.mp hp with ⟨lc, _, rfl⟩
  rfl

theorem sum_map_ratio (dist : List (String × SentimentDistribution)) (T : ℕ) :
    (dist.map fun p => 100 * (p.2.count : ℚ) / (T : ℚ)).sum =
      100 * (((dist.map fun p => p.2.count).sum : ℕ) : ℚ) / (T : ℚ) := by
  induction dist with
  | nil => simp
  | cons p l ih =>
    simp only [List.map_cons, List.sum_cons, ih]
    push_cast
    ring

/-- C2 (amended): the distribution counts sum to the number of statement-role
segments that carry sentiment (resp. emotion) data; each percentage is
`round(100 * count / total_statements, 1)` (0.0 when `total_statements = 0`);
consequently the un-rounded percentages sum to exactly 100 whenever
`total_statements > 0` AND every statement carries the datum (the claim's
"sums to 100% up to rounding" fails when some statement lacks sentiment,
since the divisor is still `total_statements`); with zero data-carrying
statements the distribution is empty and the dominant label is "N/A". -/
theorem distribution_sum_properties (segs : List AnalyzedSegment) (d : ℚ)
    (lg iid today : String) :
    (((generate_report segs d lg iid today).report.sentiment_distribution.map
        fun p => p.2.count).sum =
      ((segs.filter isStatementRole).filterMap AnalyzedSegment.sentiment).length
     ∧ ((generate_report segs d lg iid today).report.emotion_distribution.map
        fun p => p.2.count).sum =
      ((segs.filter isStatementRole).filterMap AnalyzedSegment.emotion).length)
    ∧ (∀ p ∈ (generate_report segs d lg iid today).report.sentiment_distribution,
        p.2.percentage = if 0 < (segs.filter isStatementRole).length then
          pyRound (100 * (p.2.count : ℚ) / ((segs.filter isStatementRole).length : ℚ)) 1
        else 0)
    ∧ (∀ p ∈ (generate_report segs d lg iid today).report.emotion_distribution,
        p.2.percentage = if 0 < (segs.filter isStatementRole).length then
          pyRound (100 * (p.2.count : ℚ) / ((segs.filter isStatementRole).length : ℚ)) 1
        else 0)
    ∧ (((segs.filter isStatementRole).filterMap AnalyzedSegment.sentiment).length =
          (segs.filter isStatementRole).length →
        0 < (segs.filter isStatementRole).length →
        ((generate_report segs d lg iid today).report.sentiment_distribution.map
          fun p => 100 * (p.2.count : ℚ) / ((segs.filter isStatementRole).length : ℚ)).sum =
          100)
    ∧ (((segs.filter isStatementRole).filterMap AnalyzedSegment.emotion).length =
          (segs.filter isStatementRole).length →
        0 < (segs.filter isStatementRole).length →
        ((generate_report segs d lg iid today).report.emotion_distribution.map
          fun p => 100 * (p.2.count : ℚ) / ((segs.filter isStatementRole).length : ℚ)).sum =
          100)
    ∧ ((segs.filter isStatementRole).filterMap AnalyzedSegment.sentiment = [] →
        (generate_report segs d lg iid today).report.sentiment_distribution = []
        ∧ (generate_report segs d lg iid today).report.dominant_sentiment = "N/A")
    ∧ ((segs.filter isStatementRole).filterMap AnalyzedSegment.emotion = [] →
        (generate_report segs d lg iid today).report.emotion_distribution = []
        ∧ (generate_report segs d lg iid today).report.dominant_emotion = "N/A") := by
  have hsd : (generate_report segs d lg iid today).report.sentiment_distribution =
      calculate_distribution
        (((segs.filter isStatementRole).filterMap AnalyzedSegment.sentiment).map
          SentimentResult.label)
        (segs.filter isStatementRole).length := rfl
  have hed : (generate_report segs d lg iid today).report.emotion_distribution =
      calculate_distribution
        (((segs.filter isStatementRole).filterMap AnalyzedSegment.emotion).map
          EmotionResult.label)
        (segs.filter isStatementRole).length := rfl
  refine ⟨⟨?_, ?_⟩, ?_, ?_, ?_, ?_, ?_, ?_⟩
  · rw [hsd, calculate_distribution_counts, List.length_map]
  · rw [hed, calculate_distribution_counts, List.length_map]
  · intro p hp
    rw [hsd] at hp
    exact calculate_distribution_percentage hp
  · intro p hp
    rw [hed] at hp
    exact calculate_distribution_percentage hp
  · intro hall hpos
    rw [hsd, sum_map_ratio, calculate_distribution_counts, List.length_map, hall]
    have hT : ((segs.filter isStatementRole).length : ℚ) ≠ 0 :=
      Nat.cast_ne_zero.mpr (Nat.pos_iff_ne_zero.mp hpos)
    field_simp
  · intro hall hpos
    rw [hed, sum_map_ratio, calculate_distribution_counts, List.length_map, hall]
    have hT : ((segs.filter isStatementRole).length : ℚ) ≠ 0 :=
      Nat.cast_ne_zero.mpr (Nat.pos_iff_ne_zero.mp hpos)
    field_simp
  · intro hempty
    have h1 : (generate_report segs d lg iid today).report.sentiment_distribution = [] := by
      rw [hsd, hempty]
      rfl
    refine ⟨h1, ?_⟩
    have h2 : (generate_report segs d lg iid today).report.dominant_sentiment =
        dominantLabel (generate_report segs d lg iid today).report.sentiment_distribution := rfl
    rw [h2, h1]
    rfl
  · intro hempty
    have h1 : (generate_report segs d lg iid today).report.emotion_distribution = [] := by
      rw [hed, hempty]
      rfl
    refine ⟨h1, ?_⟩
    have h2 : (generate_report segs d lg iid today).report.dominant_emotion =
        dominantLabel (generate_report segs d lg iid today).report.emotion_distribution := rfl
    rw [h2, h1]
    rfl

theorem distribution_sum_properties_witness :
    ((generate_report [sentimentStatement 1 "POS" (9/10), sentimentStatement 2 "NEG" (7/10)]
        10 "es" "i1" "2026-01-01").report.sentiment_distribution.map
      fun p => 100 * (p.2.count : ℚ) /
        ((([sentimentStatement 1 "POS" (9/10), sentimentStatement 2 "NEG" (7/10)].filter
          isStatementRole).length : ℕ) : ℚ)).sum = 100
    ∧ (generate_report [interviewerQuestion 1 "q?"] 10 "es" "i1"
        "2026-01-01").report.dominant_sentiment = "N/A" := by
  constructor
  · exact (distribution_sum_properties
      [sentimentStatement 1 "POS" (9/10), sentimentStatement 2 "NEG" (7/10)]
      10 "es" "i1" "2026-01-01").2.2.2.1 (by decide) (by decide)
  · exact ((distribution_sum_properties [interviewerQuestion 1 "q?"]
      10 "es" "i1" "2026-01-01").2.2.2.2.2.1 (by decide)).2

/-- C2, counterexample to the claim as stated: two statement-role segments, of
which only one carries sentiment data. `total_statements = 2 > 0`, the only
percentage is `round(100 * 1 / 2, 1) = 50.0`, so the percentages sum to 50,
not 100 up to rounding (a single rounded value can deviate by at most 0.05). -/
theorem distribution_sum_counterexample :
    (generate_report [sentimentStatement 1 "POS" (9/10), intervieweeStatement 2 ""]
        10 "es" "i1" "2026-01-01").report.total_statements = 2
    ∧ (generate_report [sentimentStatement 1 "POS" (9/10), intervieweeStatement 2 ""]
        10 "es" "i1" "2026-01-01").report.sentiment_distribution =
      [("POS", ⟨1, 50⟩)]
    ∧ ((generate_report [sentimentStatement 1 "POS" (9/10), intervieweeStatement 2 ""]
        10 "es" "i1" "2026-01-01").report.sentiment_distribution.map
      fun p => p.2.percentage).sum = 50
    ∧ ¬((100 - 1/20 : ℚ) ≤ 50) := by
  refine ⟨?_, ?_, ?_, by norm_num⟩
  · norm_num [generate_report, sentimentStatement, intervieweeStatement, baseSeg,
      isStatementRole, List.filter]
  · norm_num [generate_report, calculate_distribution, counterItems, firstOccurrences, pyRound,
      roundHalfEven, sentimentStatement, intervieweeStatement, baseSeg, isStatementRole,
      List.count, List.countP, List.countP.go, List.filter, List.filterMap]
  · norm_num [generate_report, calculate_distribution, counterItems, firstOccurrences, pyRound,
      roundHalfEven, sentimentStatement, intervieweeStatement, baseSeg, isStatementRole,
      List.count, List.countP, List.countP.go, List.filter, List.filterMap]

theorem roundHalfEven_sub_le (q : ℚ) : |((roundHalfEven q : ℤ) : ℚ) - q| ≤ 1/2 := by
  have h0 : (⌊q⌋ : ℚ) ≤ q := Int.floor_le q
  have h1 : q < ⌊q⌋ + 1 := Int.lt_floor_add_one q
  show |(((if q - ⌊q⌋ < 1/2 then ⌊q⌋
      else if 1/2 < q - ⌊q⌋ then ⌊q⌋ + 1
      else if Even ⌊q⌋ then ⌊q⌋ else ⌊q⌋ + 1) : ℤ) : ℚ) - q| ≤ 1/2
  split
  · rename_i h
    rw [abs_le]
    constructor <;> linarith
  · rename_i h
    split
    · rename_i h2
      push_cast
      rw [abs_le]
      constructor <;> linarith
    · rename_i h2
      have heq : q - ⌊q⌋ = 1/2 := by linarith
      split <;> (push_cast; rw [abs_le]; constructor <;> linarith)

theorem abs_pyRound_sub (q : ℚ) (d : ℕ) : |pyRound q d - q| ≤ 1 / (2 * 10 ^ d) := by
  unfold pyRound
  have h := roundHalfEven_sub_le (q * 10 ^ d)
  have h10 : (0:ℚ) < 10 ^ d := by positivity
  have hrw : (roundHalfEven (q * 10 ^ d) : ℚ) / 10 ^ d - q =
      ((roundHalfEven (q * 10 ^ d) : ℚ) - q * 10 ^ d) / 10 ^ d := by
    field_simp
    ring
  rw [hrw, abs_div, abs_of_pos h10]
  calc |(roundHalfEven (q * 10 ^ d) : ℚ) - q * 10 ^ d| / 10 ^ d
      ≤ (1/2) / 10 ^ d := (div_le_div_right h10).mpr h
    _ = 1 / (2 * 10 ^ d) := by ring

/-- C3 (amended): the report's `average_sentiment_score` equals the
arithmetic mean of `sentiment.score` over sentiment-carrying statements
ROUNDED to 3 decimal places (so it is within 1/2000 of the true mean, but not
in general equal to it), and equals 0.5 when no statement has a sentiment. -/
theorem average_sentiment_score_spec (segs : List AnalyzedSegment) (d : ℚ)
    (lg iid today : String) :
    ((((segs.filter isStatementRole).filterMap AnalyzedSegment.sentiment).map
        SentimentResult.score) = [] →
      (generate_report segs d lg iid today).report.average_sentiment_score = 1/2)
    ∧ ((((segs.filter isStatementRole).filterMap AnalyzedSegment.sentiment).map
        SentimentResult.score) ≠ [] →
      (generate_report segs d lg iid today).report.average_sentiment_score =
        pyRound (((((segs.filter isStatementRole).filterMap AnalyzedSegment.sentiment).map
            SentimentResult.score).sum) /
          (((((segs.filter isStatementRole).filterMap AnalyzedSegment.sentiment).map
            SentimentResult.score).length : ℕ) : ℚ)) 3
      ∧ |(generate_report segs d lg iid today).report.average_sentiment_score -
          ((((segs.filter isStatementRole).filterMap AnalyzedSegment.sentiment).map
            SentimentResult.score).sum) /
          (((((segs.filter isStatementRole).filterMap AnalyzedSegment.sentiment).map
            SentimentResult.score).length : ℕ) : ℚ)| ≤ 1/2000) := by
  have havg : (generate_report segs d lg iid today).report.average_sentiment_score =
      if (((segs.filter isStatementRole).filterMap AnalyzedSegment.sentiment).map
          SentimentResult.score).isEmpty then 1/2
      else pyRound (((((segs.filter isStatementRole).filterMap AnalyzedSegment.sentiment).map
          SentimentResult.score).sum) /
        (((((segs.filter isStatementRole).filterMap AnalyzedSegment.sentiment).map
          SentimentResult.score).length : ℕ) : ℚ)) 3 := rfl
  constructor
  · intro hempty
    rw [havg, hempty]
    rfl
  · intro hne
    have hfalse : (((segs.filter isStatementRole).filterMap AnalyzedSegment.sentiment).map
        SentimentResult.score).isEmpty = false := List.isEmpty_eq_false.mpr hne
    rw [havg, hfalse]
    simp only [Bool.false_eq_true, if_false]
    refine ⟨by trivial, ?_⟩
    have := abs_pyRound_sub (((((segs.filter isStatementRole).filterMap
        AnalyzedSegment.sentiment).map SentimentResult.score).sum) /
      (((((segs.filter isStatementRole).filterMap AnalyzedSegment.sentiment).map
        SentimentResult.score).length : ℕ) : ℚ)) 3
    calc _ ≤ 1 / (2 * 10 ^ 3 : ℚ) := this
      _ = 1/2000 := by norm_num

/-- C3, counterexample to the claim as stated: three statements with scores
0.1, 0.2 and 0.4 have mean 7/30 = 0.2333…, but the code returns
`round(7/30, 3) = 0.233 ≠ 7/30`. -/
theorem average_not_mean_counterexample :
    (generate_report [sentimentStatement 1 "POS" (1/10), sentimentStatement 2 "NEG" (2/10),
        sentimentStatement 3 "NEG" (2/5)] 10 "es" "i1"
        "2026-01-01").report.average_sentiment_score = 233/1000
    ∧ ((([sentimentStatement 1 "POS" (1/10), sentimentStatement 2 "NEG" (2/10),
        sentimentStatement 3 "NEG" (2/5)].filter isStatementRole).filterMap
          AnalyzedSegment.sentiment).map SentimentResult.score).sum /
      (((([sentimentStatement 1 "POS" (1/10), sentimentStatement 2 "NEG" (2/10),
        sentimentStatement 3 "NEG" (2/5)].filter isStatementRole).filterMap
          AnalyzedSegment.sentiment).map SentimentResult.score).length : ℚ) = 7/30
    ∧ (233/1000 : ℚ) ≠ 7/30 := by
  refine ⟨?_, ?_, by norm_num⟩
  · norm_num [generate_report, sentimentStatement, baseSeg, isStatementRole, List.filter,
      List.filterMap, pyRound, roundHalfEven]
  · norm_num [sentimentStatement, baseSeg, isStatementRole, List.filter, List.filterMap]

theorem average_sentiment_score_spec_witness :
    (generate_report ([] : List AnalyzedSegment) 10 "es" "i1"
      "2026-01-01").report.average_sentiment_score = 1/2
    ∧ (generate_report [sentimentStatement 1 "POS" (9/10), sentimentStatement 2 "NEG" (7/10)]
        10 "es" "i1" "2026-01-01").report.average_sentiment_score =
      pyRound (((([sentimentStatement 1 "POS" (9/10), sentimentStatement 2 "NEG" (7/10)].filter
          isStatementRole).filterMap AnalyzedSegment.sentiment).map SentimentResult.score).sum /
        ((((([sentimentStatement 1 "POS" (9/10), sentimentStatement 2 "NEG" (7/10)].filter
          isStatementRole).filterMap AnalyzedSegment.sentiment).map
            SentimentResult.score).length : ℕ) : ℚ)) 3 :=
  ⟨(average_sentiment_score_spec [] 10 "es" "i1" "2026-01-01").1 rfl,
    ((average_sentiment_score_spec
      [sentimentStatement 1 "POS" (9/10), sentimentStatement 2 "NEG" (7/10)]
      10 "es" "i1" "2026-01-01").2 (by decide)).1⟩

end Interviews
